import Mathlib

/-!
# Verification of the POLYSTEP policy-verification pipeline

A shallow embedding, in Lean 4, of the parts of the backend that decide a
verification's outcome:

* `app/services/browser_service.py` — result parsing (`_safe_json_loads`),
  the repair helpers (`_normalize_none_value`, `_clean_required_documents`),
  the agent retry/timeout/snapshot loop of `_run_agent`, and the
  navigation-path hint check of `verify_policy_sync`;
* `app/services/policy_verification_service.py` —
  `_decide_status_from_browser_result` and the orchestrator's exception path;
* `app/services/final_guidance_service.py` — `generate_final_guidance`.

Python values that flow through these functions are modelled by `JsonValue`
(dicts as ordered key/value lists, `None` as `.null`).  `json.loads` is
modelled by a strict RFC-8259 recursive-descent parser mirroring the stdlib
scanner (including the `NaN`/`Infinity` extensions); numbers are kept as
their lexemes since no modelled code path inspects numeric values.

Abstractions, noted where used: character classes of Python's Unicode-aware
`str.lower`/`str.strip`/`\s`/`\d`/`\w` are modelled on the ASCII and Hangul
ranges that the repository's data actually uses; `\uXXXX` escapes producing
lone surrogates are unrepresentable in `Char` and map to `'\0'` (no modelled
input contains them).
-/

/-! ## Python string primitives -/

/-- Whitespace stripped by Python's `str.strip()` (ASCII part; the Unicode
space characters are not used by any modelled string). -/
def isPySpace (c : Char) : Bool :=
  c = ' ' || c = '\t' || c = '\n' || c = '\r' || c = '\x0b' || c = '\x0c'

/-- Characters matched by the regex class `\s` (same ASCII set). -/
def isReSpace (c : Char) : Bool := isPySpace c

/-- Characters matched by the regex class `\d` (ASCII digits; Python also
matches other Unicode digits, which never occur in the modelled data). -/
def isReDigit (c : Char) : Bool := c.isDigit

/-- Characters matched by the regex class `\w`: ASCII alphanumerics,
underscore, and Hangul syllables (the only letter ranges occurring in the
modelled data). -/
def isReWord (c : Char) : Bool :=
  c.isAlphanum || c = '_' || ('가' ≤ c && c ≤ '힣')

def pyStripList (l : List Char) : List Char :=
  ((l.dropWhile isPySpace).reverse.dropWhile isPySpace).reverse

/-- Python `str.strip()`. -/
def pyStrip (s : String) : String := ⟨pyStripList s.data⟩

/-- Python `str.lower()` (ASCII case mapping; Korean text is unaffected by
`lower` in both Python and this model). -/
def pyLower (s : String) : String := ⟨s.data.map Char.toLower⟩

/-- Python `str.upper()` (ASCII case mapping). -/
def pyUpper (s : String) : String := ⟨s.data.map Char.toUpper⟩

def listStartsWith : List Char → List Char → Bool
  | _, [] => true
  | [], _ :: _ => false
  | a :: as, b :: bs => a = b && listStartsWith as bs

def listContainsSub : List Char → List Char → Bool
  | [], pat => pat.isEmpty
  | l@(_ :: rest), pat => listStartsWith l pat || listContainsSub rest pat

/-- Python `sub in hay` on strings. -/
def pyContains (hay sub : String) : Bool := listContainsSub hay.data sub.data

/-! ## JSON values (Python-side dict/list/str/… values) -/

/-- The values produced by `json.loads` and the dict/list literals of the
service code.  Dicts are ordered association lists; a duplicate key (which
Python resolves to the last value) is looked up last-wins by `pyGet`. -/
inductive JsonValue where
  | null
  | bool (b : Bool)
  | num (lexeme : String)
  | str (s : String)
  | arr (items : List JsonValue)
  | obj (pairs : List (String × JsonValue))

mutual

def JsonValue.beq : JsonValue → JsonValue → Bool
  | .null, .null => true
  | .bool a, .bool b => a == b
  | .num a, .num b => a == b
  | .str a, .str b => a == b
  | .arr a, .arr b => JsonValue.beqList a b
  | .obj a, .obj b => JsonValue.beqPairs a b
  | _, _ => false

def JsonValue.beqList : List JsonValue → List JsonValue → Bool
  | u :: us, w :: ws => u.beq w && JsonValue.beqList us ws
  | [], [] => true
  | _, _ => false

def JsonValue.beqPairs : List (String × JsonValue) → List (String × JsonValue) → Bool
  | (k1, v1) :: us, (k2, v2) :: ws => k1 == k2 && v1.beq v2 && JsonValue.beqPairs us ws
  | [], [] => true
  | _, _ => false

end

mutual

theorem JsonValue.beq_iff : ∀ a b : JsonValue, a.beq b = true ↔ a = b
  | .null, .null => by simp [JsonValue.beq]
  | .bool a, .bool b => by simp [JsonValue.beq]
  | .num a, .num b => by simp [JsonValue.beq]
  | .str a, .str b => by simp [JsonValue.beq]
  | .arr a, .arr b => by
      simp only [JsonValue.beq, JsonValue.beqList_iff a b]
      constructor
      · intro h; rw [h]
      · intro h; injection h
  | .obj a, .obj b => by
      simp only [JsonValue.beq, JsonValue.beqPairs_iff a b]
      constructor
      · intro h; rw [h]
      · intro h; injection h
  | .null, .bool _ => by simp [JsonValue.beq]
  | .null, .num _ => by simp [JsonValue.beq]
  | .null, .str _ => by simp [JsonValue.beq]
  | .null, .arr _ => by simp [JsonValue.beq]
  | .null, .obj _ => by simp [JsonValue.beq]
  | .bool _, .null => by simp [JsonValue.beq]
  | .bool _, .num _ => by simp [JsonValue.beq]
  | .bool _, .str _ => by simp [JsonValue.beq]
  | .bool _, .arr _ => by simp [JsonValue.beq]
  | .bool _, .obj _ => by simp [JsonValue.beq]
  | .num _, .null => by simp [JsonValue.beq]
  | .num _, .bool _ => by simp [JsonValue.beq]
  | .num _, .str _ => by simp [JsonValue.beq]
  | .num _, .arr _ => by simp [JsonValue.beq]
  | .num _, .obj _ => by simp [JsonValue.beq]
  | .str _, .null => by simp [JsonValue.beq]
  | .str _, .bool _ => by simp [JsonValue.beq]
  | .str _, .num _ => by simp [JsonValue.beq]
  | .str _, .arr _ => by simp [JsonValue.beq]
  | .str _, .obj _ => by simp [JsonValue.beq]
  | .arr _, .null => by simp [JsonValue.beq]
  | .arr _, .bool _ => by simp [JsonValue.beq]
  | .arr _, .num _ => by simp [JsonValue.beq]
  | .arr _, .str _ => by simp [JsonValue.beq]
  | .arr _, .obj _ => by simp [JsonValue.beq]
  | .obj _, .null => by simp [JsonValue.beq]
  | .obj _, .bool _ => by simp [JsonValue.beq]
  | .obj _, .num _ => by simp [JsonValue.beq]
  | .obj _, .str _ => by simp [JsonValue.beq]
  | .obj _, .arr _ => by simp [JsonValue.beq]

theorem JsonValue.beqList_iff : ∀ a b : List JsonValue, JsonValue.beqList a b = true ↔ a = b
  | [], [] => by simp [JsonValue.beqList]
  | x :: xs, y :: ys => by
      simp only [JsonValue.beqList, Bool.and_eq_true, JsonValue.beq_iff x y,
        JsonValue.beqList_iff xs ys]
      constructor
      · rintro ⟨h1, h2⟩; rw [h1, h2]
      · intro h; injection h with h1 h2; exact ⟨h1, h2⟩
  | [], _ :: _ => by simp [JsonValue.beqList]
  | _ :: _, [] => by simp [JsonValue.beqList]

theorem JsonValue.beqPairs_iff :
    ∀ a b : List (String × JsonValue), JsonValue.beqPairs a b = true ↔ a = b
  | [], [] => by simp [JsonValue.beqPairs]
  | (k1, v1) :: xs, (k2, v2) :: ys => by
      simp only [JsonValue.beqPairs, Bool.and_eq_true, beq_iff_eq, JsonValue.beq_iff v1 v2,
        JsonValue.beqPairs_iff xs ys]
      constructor
      · rintro ⟨⟨h1, h2⟩, h3⟩; rw [h1, h2, h3]
      · intro h
        injection h with h1 h2
        injection h1 with hk hv
        exact ⟨⟨hk, hv⟩, h2⟩
  | [], _ :: _ => by simp [JsonValue.beqPairs]
  | _ :: _, [] => by simp [JsonValue.beqPairs]

end

instance : DecidableEq JsonValue := fun a b =>
  decidable_of_iff (JsonValue.beq a b = true) (JsonValue.beq_iff a b)

/-- A Python dict value: ordered `(key, value)` pairs. -/
abbrev PyObj := List (String × JsonValue)

/-- `d.get(k)` with default `None`; on a duplicate key Python keeps the last
value, so lookup is last-wins. -/
def pyGet (d : PyObj) (k : String) : JsonValue :=
  match d.reverse.find? (fun p => p.1 = k) with
  | some p => p.2
  | none => .null

/-- Python `k in d`. -/
def pyHasKey (d : PyObj) (k : String) : Bool := d.any (fun p => p.1 = k)

/-- `d.setdefault(k, v)`: append `(k, v)` when the key is absent. -/
def pySetdefault (d : PyObj) (k : String) (v : JsonValue) : PyObj :=
  if pyHasKey d k then d else d ++ [(k, v)]

/-- Whether a JSON number lexeme denotes zero (all mantissa digits `0`). -/
def numLexemeIsZero (lexeme : String) : Bool :=
  let mantissa := (lexeme.data.filter (fun c => c ≠ '-' && c ≠ '+')).takeWhile
    (fun c => c ≠ 'e' && c ≠ 'E')
  mantissa.all (fun c => c = '0' || c = '.') && mantissa.any (fun c => c = '0')

/-- Python truthiness (`bool(x)`) of a modelled value. -/
def pyTruthy : JsonValue → Bool
  | .null => false
  | .bool b => b
  | .num lexeme => !numLexemeIsZero lexeme
  | .str s => s ≠ ""
  | .arr items => items ≠ []
  | .obj pairs => pairs ≠ []

/-- `isinstance(v, (bool, str))`. -/
def isBoolOrStr : JsonValue → Bool
  | .bool _ => true
  | .str _ => true
  | _ => false

def JsonValue.isObj : JsonValue → Bool
  | .obj _ => true
  | _ => false

def JsonValue.asStr : JsonValue → Option String
  | .str s => some s
  | _ => none

/-! ## `json.loads` — strict JSON parser (stdlib scanner semantics) -/

/-- JSON whitespace skipped by the stdlib scanner (`' \t\n\r'`). -/
def skipJsonWs (l : List Char) : List Char :=
  l.dropWhile (fun c => c = ' ' || c = '\t' || c = '\n' || c = '\r')

def hexDigitVal? (c : Char) : Option Nat :=
  if c.isDigit then some (c.toNat - 48)
  else
    let lc := c.toLower
    if 'a' ≤ lc && lc ≤ 'f' then some (lc.toNat - 87) else none

def hex4Val? (h1 h2 h3 h4 : Char) : Option Nat := do
  let a ← hexDigitVal? h1
  let b ← hexDigitVal? h2
  let c ← hexDigitVal? h3
  let d ← hexDigitVal? h4
  pure (a * 4096 + b * 256 + c * 16 + d)

/-- String-literal body parser (called after the opening quote), mirroring
`py_scanstring` with `strict=True`: raw control characters are rejected,
escapes are the JSON eight plus `\uXXXX`, and a high/low surrogate escape
pair is combined.  A lone surrogate (which Python would keep in the `str`)
has no `Char` representation and falls back to `Char.ofNat`'s default; no
modelled input contains one. -/
def parseJsonString : Nat → List Char → List Char → Option (String × List Char)
  | 0, _, _ => none
  | _ + 1, acc, '"' :: rest => some (⟨acc.reverse⟩, rest)
  | fuel + 1, acc, '\\' :: esc =>
    match esc with
    | '"' :: r => parseJsonString fuel ('"' :: acc) r
    | '\\' :: r => parseJsonString fuel ('\\' :: acc) r
    | '/' :: r => parseJsonString fuel ('/' :: acc) r
    | 'b' :: r => parseJsonString fuel ('\x08' :: acc) r
    | 'f' :: r => parseJsonString fuel ('\x0c' :: acc) r
    | 'n' :: r => parseJsonString fuel ('\n' :: acc) r
    | 'r' :: r => parseJsonString fuel ('\r' :: acc) r
    | 't' :: r => parseJsonString fuel ('\t' :: acc) r
    | 'u' :: h1 :: h2 :: h3 :: h4 :: r =>
      match hex4Val? h1 h2 h3 h4 with
      | none => none
      | some uni =>
        if 0xD800 ≤ uni && uni ≤ 0xDBFF then
          match r with
          | '\\' :: 'u' :: g1 :: g2 :: g3 :: g4 :: r2 =>
            match hex4Val? g1 g2 g3 g4 with
            | some uni2 =>
              if 0xDC00 ≤ uni2 && uni2 ≤ 0xDFFF then
                parseJsonString fuel
                  (Char.ofNat (0x10000 + (uni - 0xD800) * 0x400 + (uni2 - 0xDC00)) :: acc) r2
              else parseJsonString fuel (Char.ofNat uni :: acc) r
            | none => parseJsonString fuel (Char.ofNat uni :: acc) r
          | _ => parseJsonString fuel (Char.ofNat uni :: acc) r
        else parseJsonString fuel (Char.ofNat uni :: acc) r
    | _ => none
  | fuel + 1, acc, c :: rest =>
    if c.toNat < 0x20 then none else parseJsonString fuel (c :: acc) rest
  | _, _, [] => none

/-- Number parser mirroring the scanner's
`(-?(?:0|[1-9]\d*))(\.\d+)?([eE][-+]?\d+)?`; the matched lexeme is kept
verbatim (no modelled code path inspects the numeric value). -/
def parseJsonNumber (l : List Char) : Option (String × List Char) :=
  let (sign, l1) := match l with
    | '-' :: r => (['-'], r)
    | _ => (([] : List Char), l)
  let intPart? : Option (List Char × List Char) := match l1 with
    | '0' :: r => some (['0'], r)
    | c :: _ =>
      if '1' ≤ c && c ≤ '9' then
        some (l1.takeWhile isReDigit, l1.dropWhile isReDigit)
      else none
    | [] => none
  match intPart? with
  | none => none
  | some (intPart, l2) =>
    let (fracPart, l3) := match l2 with
      | '.' :: r =>
        if (r.takeWhile isReDigit).isEmpty then (([] : List Char), l2)
        else ('.' :: r.takeWhile isReDigit, r.dropWhile isReDigit)
      | _ => (([] : List Char), l2)
    let (expPart, l4) := match l3 with
      | e :: r =>
        if e = 'e' || e = 'E' then
          let (expSign, r1) := match r with
            | '+' :: r' => (['+'], r')
            | '-' :: r' => (['-'], r')
            | _ => (([] : List Char), r)
          if (r1.takeWhile isReDigit).isEmpty then (([] : List Char), l3)
          else (e :: (expSign ++ r1.takeWhile isReDigit), r1.dropWhile isReDigit)
        else (([] : List Char), l3)
      | [] => (([] : List Char), l3)
    some (⟨sign ++ intPart ++ fracPart ++ expPart⟩, l4)

/-- The scanner's five mutually recursive states, defunctionalized so the
parser is one structurally fuelled function (and hence kernel-evaluable):
a value, an object body after `{`, the key/value pair loop, an array body
after `[`, and the item loop. -/
inductive ParseTask where
  | value (l : List Char)
  | objBody (l : List Char)
  | objPairs (l : List Char) (acc : List (String × JsonValue))
  | arrBody (l : List Char)
  | arrItems (l : List Char) (acc : List JsonValue)

/-- The stdlib `scan_once` automaton.  `.value l` parses one JSON value at
`l` (no leading whitespace), including the default `NaN`/`Infinity`
constants; the other tasks are its object/array sub-states. -/
def parseJ : Nat → ParseTask → Option (JsonValue × List Char)
  | 0, _ => none
  | fuel + 1, .value l =>
    match l with
    | '"' :: r =>
      match parseJsonString fuel [] r with
      | some (s, r') => some (.str s, r')
      | none => none
    | '{' :: r => parseJ fuel (.objBody (skipJsonWs r))
    | '[' :: r => parseJ fuel (.arrBody (skipJsonWs r))
    | _ =>
      if listStartsWith l "null".data then some (.null, l.drop 4)
      else if listStartsWith l "true".data then some (.bool true, l.drop 4)
      else if listStartsWith l "false".data then some (.bool false, l.drop 5)
      else if listStartsWith l "NaN".data then some (.num "NaN", l.drop 3)
      else if listStartsWith l "Infinity".data then some (.num "Infinity", l.drop 8)
      else if listStartsWith l "-Infinity".data then some (.num "-Infinity", l.drop 9)
      else
        match parseJsonNumber l with
        | some (lexeme, r) => some (.num lexeme, r)
        | none => none
  | fuel + 1, .objBody l =>
    match l with
    | '}' :: r => some (.obj [], r)
    | _ => parseJ fuel (.objPairs l [])
  | fuel + 1, .objPairs l acc =>
    match l with
    | '"' :: r =>
      match parseJsonString fuel [] r with
      | none => none
      | some (key, r1) =>
        match skipJsonWs r1 with
        | ':' :: r2 =>
          match parseJ fuel (.value (skipJsonWs r2)) with
          | none => none
          | some (v, r3) =>
            match skipJsonWs r3 with
            | ',' :: r4 => parseJ fuel (.objPairs (skipJsonWs r4) (acc ++ [(key, v)]))
            | '}' :: r4 => some (.obj (acc ++ [(key, v)]), r4)
            | _ => none
        | _ => none
    | _ => none
  | fuel + 1, .arrBody l =>
    match l with
    | ']' :: r => some (.arr [], r)
    | _ => parseJ fuel (.arrItems l [])
  | fuel + 1, .arrItems l acc =>
    match parseJ fuel (.value l) with
    | none => none
    | some (v, r1) =>
      match skipJsonWs r1 with
      | ',' :: r2 => parseJ fuel (.arrItems (skipJsonWs r2) (acc ++ [v]))
      | ']' :: r2 => some (.arr (acc ++ [v]), r2)
      | _ => none

/-- `json.loads(text)`: skip leading whitespace, parse one value, and require
only whitespace to remain ("Extra data" otherwise).  `none` models a raised
`JSONDecodeError`.  The fuel bound exceeds the number of nested parser steps
possible on the input. -/
def jsonLoads (text : String) : Option JsonValue :=
  match parseJ (4 * text.length + 8) (.value (skipJsonWs text.data)) with
  | some (v, rest) => if (skipJsonWs rest).isEmpty then some v else none
  | none => none

example : jsonLoads "[1, 2]" = some (.arr [.num "1", .num "2"]) := by decide
example : jsonLoads " \x7b\"matched\": true\x7d" =
    some (.obj [("matched", .bool true)]) := by decide
example : jsonLoads "자료가 없습니다" = none := by decide
example : jsonLoads "\x7b\"a\": [1.5e3, null]\x7d x" = none := by decide
example : jsonLoads "\x7b\"a\": \x7b\"b\": [\"c\", -2.5]\x7d\x7d" =
    some (.obj [("a", .obj [("b", .arr [.str "c", .num "-2.5"])])]) := by decide

/-! ## Regex helpers for `browser_service`'s repair layer -/

/-- Word/non-word transition (`\b`): positions outside the string count as
non-word. -/
def isWordOpt : Option Char → Bool
  | some c => isReWord c
  | none => false

def reBoundary (prev next : Option Char) : Bool := isWordOpt prev != isWordOpt next

/-- Characters of the class `[-\s]` used by `_PHONE_RE`'s separators. -/
def isPhoneSep (c : Char) : Bool := c = '-' || isReSpace c

/-- Consume exactly `n` `\d` digits. -/
def takeDigits : Nat → List Char → Option (List Char)
  | 0, l => some l
  | _ + 1, [] => none
  | n + 1, c :: r => if isReDigit c then takeDigits n r else none

/-- Both continuations of an optional `[-\s]?` separator (regex backtracking:
with the separator consumed, and without). -/
def optSep (l : List Char) : List (List Char) :=
  match l with
  | c :: r => if isPhoneSep c then [r, l] else [l]
  | [] => [l]

/-- The mandatory part of `_PHONE_RE` (`0\d{1,2}[-\s]?\d{3,4}[-\s]?\d{4}`)
matched at the head of `l`, trying every quantifier choice. -/
def phoneCoreAt (l : List Char) : Bool :=
  match l with
  | '0' :: r =>
    [2, 1].any fun k =>
      match takeDigits k r with
      | none => false
      | some r1 =>
        (optSep r1).any fun r2 =>
          [4, 3].any fun m =>
            match takeDigits m r2 with
            | none => false
            | some r3 => (optSep r3).any fun r4 => (takeDigits 4 r4).isSome
  | _ => false

/-- `_PHONE_RE` (`(?:\+82[-\s]?)?0\d{1,2}[-\s]?\d{3,4}[-\s]?\d{4}`) matched
at the head of `l`; the optional `+82` prefix adds no matches that the bare
core lacks but is kept for fidelity. -/
def phoneMatchAt (l : List Char) : Bool :=
  (match l with
   | '+' :: '8' :: '2' :: r => (optSep r).any phoneCoreAt
   | _ => false) ||
  phoneCoreAt l

/-- `_PHONE_RE.search`: a match at some position. -/
def phoneSearchList : List Char → Bool
  | [] => false
  | l@(_ :: r) => phoneMatchAt l || phoneSearchList r

def phoneSearch (s : String) : Bool := phoneSearchList s.data

/-- `\b(?:도로|로|길)\s*\d+\b` at the head of `l` (`prev` is the previous
character).  After the greedy `\s*` and `\d+` (exact here, since a digit is
not whitespace and a boundary directly after a digit needs a non-word
successor), the trailing `\b` holds iff the next character is non-word. -/
def addrRoadAt (prev : Option Char) (l : List Char) : Bool :=
  reBoundary prev l.head? &&
  (["도로", "로", "길"].any fun w =>
    listStartsWith l w.data &&
    (let r1 := (l.drop w.data.length).dropWhile isReSpace
     let ds := r1.takeWhile isReDigit
     !ds.isEmpty &&
       match (r1.drop ds.length).head? with
       | some c => !isReWord c
       | none => true))

/-- `\b\d+\s*번지\b` at the head of `l`. -/
def addrBunjiAt (prev : Option Char) (l : List Char) : Bool :=
  reBoundary prev l.head? &&
  (let ds := l.takeWhile isReDigit
   !ds.isEmpty &&
     (let r1 := (l.drop ds.length).dropWhile isReSpace
      listStartsWith r1 "번지".data &&
        match (r1.drop 2).head? with
        | some c => !isReWord c
        | none => true))

/-- `\b(?:읍|면|동|리)\b` or `\b(?:시|군|구)\b` at the head of `l`: a
single word character forming a whole word. -/
def addrUnitAt (prev : Option Char) (l : List Char) : Bool :=
  match l with
  | c :: r =>
    (c = '읍' || c = '면' || c = '동' || c = '리' || c = '시' || c = '군' || c = '구') &&
      !isWordOpt prev &&
      (match r.head? with
       | some c2 => !isReWord c2
       | none => true)
  | [] => false

/-- `_LIKELY_ADDRESS_RE.search`: any alternative at any position. -/
def addressScan (prev : Option Char) : List Char → Bool
  | [] => false
  | l@(c :: r) =>
    addrRoadAt prev l || addrBunjiAt prev l || addrUnitAt prev l || addressScan (some c) r

def addressSearch (s : String) : Bool := addressScan none s.data

/-- The filename extensions of `_FILE_EXT_RE`
(`.+\.(?:hwp|hwpx|pdf|docx?|xlsx?|pptx?|zip|png|jpg|jpeg)$`). -/
def fileExts : List String :=
  ["hwp", "hwpx", "pdf", "doc", "docx", "xls", "xlsx", "ppt", "pptx", "zip", "png", "jpg",
    "jpeg"]

/-- `_FILE_EXT_RE.match` (anchored at the start, `re.IGNORECASE`): a
non-empty newline-free prefix, a dot, and a known extension at the end of
the string (`$` also matches just before one final newline). -/
def fileExtMatch (s : String) : Bool :=
  let t := match s.data.reverse with
    | '\n' :: rest => rest.reverse
    | _ => s.data
  fileExts.any fun e =>
    let el := e.data
    t.length ≥ el.length + 2 &&
      (t.drop (t.length - el.length)).map Char.toLower = el &&
      (t.take (t.length - el.length)).getLast? = some '.' &&
      (t.take (t.length - el.length - 1)).all (fun c => c ≠ '\n')

example : fileExtMatch "신청서.pdf" = true := by decide
example : fileExtMatch "application_form.PDF" = true := by decide
example : fileExtMatch "02-123-4567" = false := by decide
example : phoneSearch "02-123-4567" = true := by decide
example : phoneSearch "여권" = false := by decide
example : phoneSearch "대표전화: 02 123 4567" = true := by decide
example : addressSearch "123 번지" = true := by decide
example : addressSearch "서울특별시 강남구 테헤란로 123" = false := by decide
example : addressSearch "여권" = false := by decide

/-! ## `browser_service._safe_json_loads` and the not-found heuristics -/

/-- `_NOT_FOUND_HINTS` (browser_service.py, module level). -/
def NOT_FOUND_HINTS : List String :=
  ["could not be found", "cannot be found", "not be found", "no matching data",
    "no data available", "자료가 없습니다", "조회된", "없습니다", "찾을 수 없", "발견하지 못",
    "확인할 수 없", "정보가 없", "페이지가 비어", "상세 정보를"]

/-- `_JUDGE_FAIL_HINTS`. -/
def JUDGE_FAIL_HINTS : List String :=
  ["Judge Verdict: ❌ FAIL", "Failure Reason:", "⚖️  Judge Verdict"]

/-- `any(h in low for h in _NOT_FOUND_HINTS) or any(h.lower() in low for h in
_JUDGE_FAIL_HINTS)` over `low = text.lower()`. -/
def notFoundHintMatch (text : String) : Bool :=
  let low := pyLower text
  NOT_FOUND_HINTS.any (fun h => pyContains low h) ||
    JUDGE_FAIL_HINTS.any (fun h => pyContains low (pyLower h))

/-- `\s*```` after the group's closing brace (exact: a backtick is not
whitespace, so the greedy `\s*` has a unique viable extent). -/
def fenceCloseAfter (l : List Char) : Bool :=
  listStartsWith (l.dropWhile isReSpace) "```".data

/-- The greedy group `(\{[\s\S]*\})` of the fenced-block regex: `rest` starts
at the opening brace; the group runs to the *last* closing brace that is
followed by `\s*```` (the greedy `[\s\S]*` backtracks from the right). -/
def fencedGroup? (rest : List Char) : Option (List Char) :=
  match (List.range rest.length).reverse.find?
      (fun j => rest.get? j = some '}' && fenceCloseAfter (rest.drop (j + 1))) with
  | some j => some (rest.take (j + 1))
  | none => none

/-- After ```` ``` ```` and the optional `json` tag: `\s*` then the braced
group (again exact, a brace is not whitespace). -/
def fenceCandidate? (l2 : List Char) : Option (List Char) :=
  let l3 := l2.dropWhile isReSpace
  match l3 with
  | '{' :: _ => fencedGroup? l3
  | _ => none

/-- One attempt of ``` ```(?:json)?\s*(\{[\s\S]*\})\s*``` ``` (IGNORECASE) at
the head of `l`; the optional `json` tag is tried consumed first (regex
greediness), falling back to the unconsumed alternative. -/
def fenceTryAt (l : List Char) : Option (List Char) :=
  if listStartsWith l "```".data then
    let l1 := l.drop 3
    if listStartsWith (l1.map Char.toLower) "json".data then
      match fenceCandidate? (l1.drop 4) with
      | some g => some g
      | none => fenceCandidate? l1
    else fenceCandidate? l1
  else none

/-- `re.search` of the fenced-block pattern: leftmost position wins. -/
def fencedSearch : List Char → Option (List Char)
  | [] => none
  | l@(_ :: r) =>
    match fenceTryAt l with
    | some g => some g
    | none => fencedSearch r

/-- The fenced ```` ```json { … } ``` ```` extraction of `_safe_json_loads`. -/
def fencedExtract (text : String) : Option String := (fencedSearch text.data).map (⟨·⟩)

/-- `text.find("{")`. -/
def pyFindBrace (text : String) : Option Nat := text.data.findIdx? (· = '{')

/-- `text.rfind("}")`. -/
def pyRfindBrace (text : String) : Option Nat :=
  match text.data.reverse.findIdx? (· = '}') with
  | some j => some (text.data.length - 1 - j)
  | none => none

/-- The outermost-brace slice `text[start:end + 1]`, guarded by
`start != -1 and end != -1 and end > start`. -/
def braceSlice? (text : String) : Option String :=
  match pyFindBrace text, pyRfindBrace text with
  | some st, some en => if st < en then some ⟨(text.data.drop st).take (en + 1 - st)⟩ else none
  | _, _ => none

/-- `return obj if isinstance(obj, dict) else {"raw": text}`. -/
def objOrRaw (text : String) : JsonValue → PyObj
  | .obj pairs => pairs
  | _ => [("raw", .str text)]

/-- The synthesized confident not-found result of `_safe_json_loads`
(browser_service.py lines 1451–1474).  The source dict literal writes the
`"contact"` key twice; Python keeps the last value, which the last-wins
lookup `pyGet` reproduces on this ordered pair list. -/
def notFoundDict (text : String) : PyObj :=
  [("matched", .bool false),
    ("matched_title", .null),
    ("source_url", .null),
    ("criteria", .obj [("age", .str "제한 없음"), ("region", .str "제한 없음"),
      ("income", .str "제한 없음"), ("employment", .str "제한 없음"), ("other", .str "없음")]),
    ("required_documents", .arr []),
    ("apply_steps", .arr []),
    ("apply_channel", .null),
    ("apply_period", .null),
    ("contact", .obj []),
    ("contact", .obj [("org", .str ""), ("tel", .str ""), ("site", .str "")]),
    ("evidence_text", .str text),
    ("navigation_path", .arr []),
    ("error_message", .str "POLICY_NOT_FOUND"),
    ("image_urls", .arr []),
    ("confidence", .num "0.0"),
    ("needs_review", .bool false)]

/-- The shared outermost-brace fallback step (the last resort of both
`_safe_json_loads` implementations). -/
def braceStep (text : String) : PyObj :=
  match braceSlice? text with
  | some candidate =>
    match jsonLoads candidate with
    | some v => objOrRaw text v
    | none => [("raw", .str text)]
  | none => [("raw", .str text)]

/-- `BrowserService._safe_json_loads`: direct decode; then the not-found
hint synthesis; then the fenced block; then the outermost-brace span; then
the `{"raw": text}` fallback. -/
def safeJsonLoads (text : String) : PyObj :=
  match jsonLoads text with
  | some v => objOrRaw text v
  | none =>
    if notFoundHintMatch text then notFoundDict text
    else
      match fencedExtract text with
      | some candidate =>
        match jsonLoads candidate with
        | some v => objOrRaw text v
        | none => braceStep text
      | none => braceStep text

/-- The generic parse-failure replacement of `_run_agent` (lines 1352–1369),
used when the parsed value kept the `"raw"` fallback and `matched` is not a
bool/str. -/
def jsonFailDict (finalText : String) : PyObj :=
  [("matched", .null),
    ("matched_title", .null),
    ("source_url", .null),
    ("criteria", .obj []),
    ("required_documents", .arr []),
    ("apply_steps", .arr []),
    ("apply_channel", .null),
    ("apply_period", .null),
    ("contact", .obj []),
    ("evidence_text", .str finalText),
    ("navigation_path", .arr []),
    ("error_message",
      .str "JSON parsing failed - manual review needed. raw text stored in evidence_text."),
    ("image_urls", .arr []),
    ("confidence", .num "0.0"),
    ("needs_review", .bool true)]

/-- `_run_agent`'s coercion of the parsed final text:
`if "raw" in parsed and not isinstance(parsed.get("matched"), (bool, str))`. -/
def coerceParsed (finalText : String) : PyObj :=
  let parsed := safeJsonLoads finalText
  if pyHasKey parsed "raw" && !isBoolOrStr (pyGet parsed "matched") then jsonFailDict finalText
  else parsed

/-! ## Repair helpers (`_normalize_none_value`, `_clean_required_documents`) -/

/-- `NONE_VALUES` (browser_service.py line 607). -/
def NONE_VALUES : List String :=
  ["없음", "없습니다", "해당 없음", "해당없음", "무관", "미해당", "-", "x", "X"]

/-- `_norm_none_or_str`: `None` stays `None`, otherwise strip and turn an
empty result into `None`.  (Non-string values would be `str()`-converted
first; every modelled call site passes strings.) -/
def pyNormNoneOrStr : Option String → Option String
  | none => none
  | some v => let s := pyStrip v; if s = "" then none else some s

/-- `_normalize_none_value(value, default)`. -/
def normalizeNoneValue (value : Option String) (dflt : String) : String :=
  let s := pyStrip ((pyNormNoneOrStr value).getD "")
  if s = "" then dflt
  else if pyLower s = "none" || pyLower s = "n/a" then dflt
  else if s ∈ NONE_VALUES then dflt
  else s

/-- One entry's fate in `_clean_required_documents`'s filter loop: `none`
models `continue`/fall-through, `some s` models `out.append(s)`. -/
def keepRequiredDocument? (raw : Option String) : Option String :=
  match pyNormNoneOrStr raw with
  | none => none
  | some s =>
    if (pyContains s "대표전화" || pyContains s "대표 전화" || pyContains s "전화" ||
        pyContains (pyUpper s) "TEL") && !fileExtMatch s then none
    else if phoneSearch s && !fileExtMatch s then none
    else if addressSearch s && !fileExtMatch s then none
    else if fileExtMatch s || pyContains s "신청서" || pyContains s "제출" ||
        pyContains s "서류" || pyContains s "증명" || pyContains s "공고" then some s
    else none

/-- The final `seen`-set deduplication loop (first occurrence wins). -/
def dedupAux (seen : List String) : List String → List String
  | [] => []
  | x :: xs => if x ∈ seen then dedupAux seen xs else x :: dedupAux (x :: seen) xs

/-- `_clean_required_documents(items)`.  (A non-list `items` returns `[]` in
the source; the model takes the list case, with `none` entries for `None`.) -/
def cleanRequiredDocuments (items : List (Option String)) : List String :=
  dedupAux [] (items.filterMap keepRequiredDocument?)

/-! ## `_decide_status_from_browser_result` -/

/-- `PolicyVerificationStatus` values (models.py). -/
def STATUS_PENDING : String := "PENDING"

def STATUS_SUCCESS : String := "SUCCESS"

def STATUS_FAILED : String := "FAILED"

/-- Python `repr`, as used by `f"matched={matched!r}"` (string quoting is
modelled without escape processing; no modelled reason string is inspected
beyond the branch that avoids `repr` entirely). -/
def pyRepr : JsonValue → String
  | .null => "None"
  | .bool true => "True"
  | .bool false => "False"
  | .num lexeme => lexeme
  | .str s => "'" ++ s ++ "'"
  | .arr _ => "[...]"
  | .obj _ => "{...}"

/-- `(x or "")` followed by `.strip()`-readiness: a falsy value yields `""`,
a truthy string yields itself, and a truthy non-string models the
`AttributeError` Python would raise on `.strip()`. -/
def pyOrEmptyStr : JsonValue → Except String String
  | .str s => .ok s
  | v => if pyTruthy v then .error "AttributeError: .strip() on a non-string" else .ok ""

/-- `PolicyVerificationService._decide_status_from_browser_result`.  Returns
`(status, reason)`; `.error` models an exception escaping to the
orchestrator's handler. -/
def decideStatus (result : PyObj) : Except String (String × String) :=
  let matched := pyGet result "matched"
  let needsReview := pyTruthy (pyGet result "needs_review")
  match pyOrEmptyStr (pyGet result "error_message") with
  | .error e => .error e
  | .ok rawErr =>
    let err := pyStrip rawErr
    if err = "POLICY_NOT_FOUND" then
      .ok (STATUS_FAILED, "policy not found on the provided site (POLICY_NOT_FOUND)")
    else if matched = JsonValue.bool true ∧ needsReview = false ∧ err = "" then
      .ok (STATUS_SUCCESS, "")
    else
      let reasons :=
        (if matched ≠ JsonValue.bool true then ["matched=" ++ pyRepr matched] else []) ++
          (if needsReview then ["needs_review=True"] else []) ++
          (if err ≠ "" then ["error_message=" ++ err] else [])
      let reasonText :=
        if reasons = [] then "verification not successful" else String.intercalate " | " reasons
      .ok (STATUS_FAILED, reasonText)

/-! ## Exception classifiers and the `_run_agent` retry/timeout loop -/

/-- `.*` gap (no newline) followed by the literal `p2`, for the `PAT1.*PAT2`
regexes. -/
def gapThen (p2 : List Char) : List Char → Bool
  | [] => p2.isEmpty
  | l@(c :: r) => listStartsWith l p2 || (c ≠ '\n' && gapThen p2 r)

/-- `re.search` of `p1.*p2` over an already case-folded character list. -/
def scanSeq (p1 p2 : List Char) : List Char → Bool
  | [] => p1.isEmpty && p2.isEmpty
  | l@(_ :: r) => (listStartsWith l p1 && gapThen p2 (l.drop p1.length)) || scanSeq p1 p2 r

/-- `re.search` of `pat\d+` (the literal followed by at least one digit). -/
def scanLitThenDigit (pat : List Char) : List Char → Bool
  | [] => false
  | l@(_ :: r) =>
    (listStartsWith l pat &&
        match (l.drop pat.length).head? with
        | some c => isReDigit c
        | none => false) ||
      scanLitThenDigit pat r

/-- `_is_browser_snapshot_timeout`, applied to the classifier message
`f"{type(e).__name__}: {e}"` (both patterns are case-insensitive). -/
def isBrowserSnapshotTimeout (msg : String) : Bool :=
  let low := (pyLower msg).data
  scanSeq "screenshotwatchdog.on_screenshotevent".data "timed out".data low ||
    listContainsSub low "clean screenshot failed".data

/-- `_is_browser_start_timeout`. -/
def isBrowserStartTimeout (msg : String) : Bool :=
  let low := (pyLower msg).data
  scanSeq "browserstartevent".data "timed out".data low ||
    scanSeq "browserlaunchevent".data "timed out".data low ||
    scanLitThenDigit "cannot connect to host 127.0.0.1:".data low ||
    listContainsSub low "_wait_for_cdp_url".data

/-- `_is_overload_error` (the `503`/`UNAVAILABLE` checks are case-sensitive
in the source; the `overload` checks lowercase first). -/
def isOverloadError (msg : String) : Bool :=
  pyContains msg "503" || pyContains msg "UNAVAILABLE" ||
    pyContains (pyLower msg) "overload" || pyContains (pyLower msg) "overloaded"

/-- One scripted outcome of `await asyncio.wait_for(agent.run(), …)`:
normal return, the deadline's `asyncio.TimeoutError`, or another exception
with its type name and `str(e)`.  `recreateOk` is consulted only when the
exception matches the browser-start pattern on a headful Linux run and
models whether the in-branch `_create_browser` succeeds. -/
inductive AgentOutcome where
  | success
  | timeout
  | exn (typeName msg : String) (recreateOk : Bool)
  deriving DecidableEq

/-- `f"{type(e).__name__}: {e}"` (an `asyncio.TimeoutError` has an empty
`str`). -/
def AgentOutcome.classifierMsg : AgentOutcome → String
  | .success => ""
  | .timeout => "TimeoutError: "
  | .exn typeName msg _ => typeName ++ ": " ++ msg

/-- `str(e)`. -/
def AgentOutcome.strMsg : AgentOutcome → String
  | .success => ""
  | .timeout => ""
  | .exn _ msg _ => msg

def AgentOutcome.typeNameOf : AgentOutcome → String
  | .success => ""
  | .timeout => "TimeoutError"
  | .exn typeName _ _ => typeName

def AgentOutcome.recreateOkOf : AgentOutcome → Bool
  | .exn _ _ ok => ok
  | _ => false

/-- The configuration read at the top of `_run_agent` (env defaults:
`BROWSER_LLM_MAX_RETRIES=3`, `BROWSER_MAX_SNAPSHOT_FAILURES=2`,
`BROWSER_MAX_TIME_SEC=300`).  `max_time_sec` is a float in the source,
rendered by `{:.0f}`; it is modelled as the whole number of seconds. -/
structure RunCfg where
  maxRetries : Nat
  maxSnapshotFailures : Nat
  maxTimeSec : Nat
  isLinux : Bool
  headless : Bool
  entryUrl : Option String
  downloadsDir : String

def optStr : Option String → JsonValue
  | some s => .str s
  | none => .null

/-- The dedicated circuit-breaker result (lines 1153–1171). -/
def snapshotFailResult (cfg : RunCfg) : PyObj :=
  [("matched", .null),
    ("matched_title", .null),
    ("source_url", optStr cfg.entryUrl),
    ("criteria", .obj []),
    ("required_documents", .arr []),
    ("apply_steps", .arr []),
    ("apply_channel", .null),
    ("apply_period", .null),
    ("contact", .obj []),
    ("evidence_text", .str ""),
    ("navigation_path", .arr []),
    ("error_message",
      .str "Browser snapshot (screenshot/DOM) timeouts occurred repeatedly. Manual review needed."),
    ("downloaded_files", .arr []),
    ("downloads_dir", .str cfg.downloadsDir),
    ("image_urls", .arr []),
    ("confidence", .num "0.0"),
    ("needs_review", .bool true)]

/-- The deadline result of the outer `except asyncio.TimeoutError`
(lines 1228–1247). -/
def timeoutResult (cfg : RunCfg) : PyObj :=
  [("matched", .null),
    ("matched_title", .null),
    ("source_url", optStr cfg.entryUrl),
    ("criteria", .obj []),
    ("required_documents", .arr []),
    ("apply_steps", .arr []),
    ("apply_channel", .null),
    ("apply_period", .null),
    ("contact", .obj []),
    ("evidence_text", .str ""),
    ("navigation_path", .arr []),
    ("navigation_path_warning", .str "Agent timed out before producing navigation 기록"),
    ("error_message", .str ("Agent exceeded " ++ toString cfg.maxTimeSec ++ "s timeout")),
    ("downloaded_files", .arr []),
    ("downloads_dir", .str cfg.downloadsDir),
    ("image_urls", .arr []),
    ("confidence", .num "0.0"),
    ("needs_review", .bool true)]

/-- The generic result of the outer `except Exception` (lines 1250–1269);
`excText` is `str(e)` of the escaping exception. -/
def genericFailResult (cfg : RunCfg) (excText : String) : PyObj :=
  [("matched", .null),
    ("matched_title", .null),
    ("source_url", optStr cfg.entryUrl),
    ("criteria", .obj []),
    ("required_documents", .arr []),
    ("apply_steps", .arr []),
    ("apply_channel", .null),
    ("apply_period", .null),
    ("contact", .obj []),
    ("evidence_text", .str ""),
    ("navigation_path", .arr []),
    ("navigation_path_warning", .str "Agent failed before producing navigation 기록"),
    ("error_message", .str ("Agent execution failed: " ++ excText)),
    ("downloaded_files", .arr []),
    ("downloads_dir", .str cfg.downloadsDir),
    ("image_urls", .arr []),
    ("confidence", .num "0.0"),
    ("needs_review", .bool true)]

/-- How `_run_agent`'s `for attempt in range(0, max_retries + 1)` loop ends:
a normal `agent.run()` return (control continues to result parsing with the
final counter values), or one of the three early-return dicts. -/
inductive LoopRes where
  | finished (snapshotFailures : Nat) (attempt : Nat)
  | early (res : PyObj)
  deriving DecidableEq

/-- The body of the retry loop (lines 1129–1269), one iteration per
`remaining` unit; `script` supplies each `agent.run()` outcome in turn
(an exhausted script behaves as a successful run).  Mirrors, in order: the
snapshot-watchdog count and threshold return; the headful-Linux
browser-start retry (`continue`, headless from then on); `last_err = e`;
the overload backoff retry; and the final `raise` into the outer handlers
(`except asyncio.TimeoutError` → `timeoutResult`, `except Exception` →
`genericFailResult`).  A loop that exhausts all attempts re-raises
`last_err or RuntimeError("Agent run failed with unknown error")`. -/
def runAgentGo (cfg : RunCfg) :
    Nat → Nat → List AgentOutcome → Nat → Bool → Option (String × String) → LoopRes
  | 0, _, _, _, _, lastErr =>
    .early (genericFailResult cfg
      (match lastErr with
        | some (_, m) => m
        | none => "Agent run failed with unknown error"))
  | rem + 1, attempt, script, snap, headless, lastErr =>
    match script with
    | [] => .finished snap attempt
    | .success :: _ => .finished snap attempt
    | o :: rest =>
      let cmsg := o.classifierMsg
      let snap' := if isBrowserSnapshotTimeout cmsg then snap + 1 else snap
      if isBrowserSnapshotTimeout cmsg ∧ snap' ≥ cfg.maxSnapshotFailures then
        .early (snapshotFailResult cfg)
      else if cfg.isLinux ∧ headless = false ∧ isBrowserStartTimeout cmsg ∧
          o.recreateOkOf = true then
        runAgentGo cfg rem (attempt + 1) rest snap' true lastErr
      else if isOverloadError cmsg ∧ attempt < cfg.maxRetries then
        runAgentGo cfg rem (attempt + 1) rest snap' headless (some (o.typeNameOf, o.strMsg))
      else
        match o with
        | .timeout => .early (timeoutResult cfg)
        | _ => .early (genericFailResult cfg o.strMsg)

/-- The whole retry loop, from `attempt = 0` with no failures recorded. -/
def runAgentLoop (cfg : RunCfg) (script : List AgentOutcome) : LoopRes :=
  runAgentGo cfg (cfg.maxRetries + 1) 0 script 0 cfg.headless none

/-! ## Navigation-path hint check (`verify_policy_sync`) and path injection -/

/-- The bookkeeping step `_run_agent` injects when the agent recorded no
navigation path (line 1400):
`{"action": "open", "label": "start", "url": entry_url, "note": "entry"}`. -/
def injectedEntryStep (entryUrl : String) : PyObj :=
  [("action", .str "open"), ("label", .str "start"), ("url", .str entryUrl),
    ("note", .str "entry")]

/-- The `navigation_path` fix-up of `_run_agent` (lines 1395–1400): a
non-list becomes `[]`; an empty path gets the warning and, when `entry_url`
is non-empty, the injected bookkeeping step.  Returns the new path and the
optional `navigation_path_warning`. -/
def fixupNavigationPath (navPath : JsonValue) (entryUrl : Option String) :
    List JsonValue × Option String :=
  let pathList := match navPath with
    | .arr l => l
    | _ => []
  match pathList with
  | [] =>
    (match entryUrl with
      | some u =>
        if u ≠ "" then [JsonValue.obj (injectedEntryStep u)] else []
      | none => [],
      some "Agent did not record any navigation_path (empty list)")
  | l => (l, none)

/-- The hint-usability check of `verify_policy_sync` (lines 1730–1737):
`len ≥ 2`, or `len == 1` with a first entry whose `action` is not `"open"`
or whose `note` is not `"auto-injected"`.  A `None` or empty stored path is
falsy and is never a hint.  (Path entries are dicts in the persisted
format; `navigation_path[0] or {}` turns a falsy entry into `{}`.) -/
def usableHint (navigationPath : Option (List PyObj)) : Bool :=
  match navigationPath with
  | none => false
  | some entries =>
    if entries = [] then false
    else if entries.length ≥ 2 then true
    else
      match entries with
      | [a0raw] =>
        let a0 := if a0raw ≠ [] then a0raw else []
        decide (pyGet a0 "action" ≠ .str "open" ∨ pyGet a0 "note" ≠ .str "auto-injected")
      | _ => false

/-! ## `FinalGuidanceService.generate_final_guidance` -/

/-- `final_guidance_service._safe_json_loads` (lines 14–39): identical to
the browser-service parser but with no not-found synthesis. -/
def fgSafeJsonLoads (text : String) : PyObj :=
  match jsonLoads text with
  | some v => objOrRaw text v
  | none =>
    match fencedExtract text with
    | some candidate =>
      match jsonLoads candidate with
      | some v => objOrRaw text v
      | none => braceStep text
    | none => braceStep text

/-- The minimal-structure fallback returned on parse failure
(lines 151–176). -/
def fgFallbackDict (policyTitle policyUrl : String) (rawVal : JsonValue) : PyObj :=
  [("policy_title", .str policyTitle),
    ("source_url", .str policyUrl),
    ("summary", .str "생성 실패"),
    ("eligibility", .obj [("age", .str "unknown"), ("region", .str "unknown"),
      ("income", .str "unknown"), ("employment", .str "unknown"), ("other", .str "unknown")]),
    ("apply_overview", .obj [("apply_channel", .str "unknown"),
      ("apply_period", .str "unknown"), ("where_to_apply", .null)]),
    ("final_required_documents", .arr []),
    ("final_apply_steps", .arr []),
    ("contact", .obj [("org", .str "unknown"), ("tel", .null), ("site", .null)]),
    ("warnings", .arr [.str "LLM JSON 파싱 실패 - 수동 확인 필요"]),
    ("faq", .arr []),
    ("confidence", .num "0.0"),
    ("needs_review", .bool true),
    ("why_review", .str "LLM did not return JSON"),
    ("raw_output", rawVal)]

/-- `FinalGuidanceService.generate_final_guidance`.  `apiKey` models
`os.getenv("GOOGLE_API_KEY") or os.getenv("GEMINI_API_KEY")` (with `none`
for missing/empty); `modelReply` models the `model.generate_content` call:
`.error` an exception raised by it, `.ok resp_text` its `resp.text` (an
absent text becomes `""` via `resp.text or ""`).  An `.error` result is an
exception propagating out of the function — there is no surrounding
`try`/`except` in the source. -/
def generateFinalGuidance (apiKey : Option String) (modelReply : Except String (Option String))
    (policyTitle policyUrl bundleText : String) : Except String PyObj :=
  match apiKey with
  | none => .error "GOOGLE_API_KEY is not set"
  | some _ =>
    match modelReply with
    | .error e => .error e
    | .ok respText =>
      let text := respText.getD ""
      let parsed := fgSafeJsonLoads text
      if pyHasKey parsed "raw" then
        .ok (fgFallbackDict policyTitle policyUrl (pyGet parsed "raw"))
      else
        .ok (pySetdefault (pySetdefault (pySetdefault parsed "confidence" (.num "0.0"))
          "needs_review" (.bool false)) "why_review" .null)

/-! ## Orchestrator exception path (`run_verification_job_sync`) -/

/-- The `except Exception` handler of `run_verification_job_sync`
(lines 225–234): the record is persisted with `FAILED` and
`error_message = f"{e}\n{traceback.format_exc()}"`.  `excText` is `str(e)`
and `tracebackText` the `traceback.format_exc()` dump; the pair returned is
`(v.status, v.error_message)`. -/
def orchestratorOnException (excText tracebackText : String) : String × String :=
  (STATUS_FAILED, excText ++ "\n" ++ tracebackText)

/-! ## Concrete instances used by the analysis -/

/-- The default `_run_agent` configuration on a headless Linux server
(`BROWSER_LLM_MAX_RETRIES=3`, `BROWSER_MAX_SNAPSHOT_FAILURES=2`,
`BROWSER_MAX_TIME_SEC=300`). -/
def cfgDefault : RunCfg :=
  { maxRetries := 3, maxSnapshotFailures := 2, maxTimeSec := 300, isLinux := true,
    headless := true, entryUrl := some "https://example.gov/program",
    downloadsDir := "/downloads/verify_1" }

/-- A scripted snapshot-watchdog failure: its classifier message
`"RuntimeError: ScreenshotWatchdog.on_ScreenshotEvent timed out after 8.0s"`
matches `_SCREENSHOT_TIMEOUT_RE` and none of the other classifiers. -/
def snapshotExn : AgentOutcome :=
  .exn "RuntimeError" "ScreenshotWatchdog.on_ScreenshotEvent timed out after 8.0s" false

/-- Whether an `Except` is a normal return. -/
def exceptIsOk : Except String PyObj → Bool
  | .ok _ => true
  | .error _ => false

/-- The stripped candidate string examined by `_normalize_none_value`. -/
def normStripped (v : Option String) : String := pyStrip ((pyNormNoneOrStr v).getD "")

/-! ## Helper lemmas -/

theorem listStartsWith_refl (l : List Char) : listStartsWith l l = true := by
  induction l with
  | nil => rfl
  | cons c r ih => simp [listStartsWith, ih]

theorem listStartsWith_append (l r : List Char) : listStartsWith (l ++ r) l = true := by
  induction l with
  | nil => cases r <;> rfl
  | cons c t ih => simp [listStartsWith, ih]

theorem listContainsSub_of_startsWith {hay pat : List Char}
    (h : listStartsWith hay pat = true) : listContainsSub hay pat = true := by
  cases hay with
  | nil =>
    cases pat with
    | nil => rfl
    | cons c r => simp [listStartsWith] at h
  | cons c r => simp [listContainsSub, h]

theorem listContainsSub_append_left (pre : List Char) {hay pat : List Char}
    (h : listContainsSub hay pat = true) : listContainsSub (pre ++ hay) pat = true := by
  induction pre with
  | nil => simpa using h
  | cons c t ih =>
    cases pat with
    | nil => simp [listContainsSub, listStartsWith]
    | cons pc pr => simp [listContainsSub, ih]

/-- `pat in (pat ++ rest)`. -/
theorem pyContains_left (pat rest : String) : pyContains (pat ++ rest) pat = true := by
  unfold pyContains
  rw [String.data_append]
  exact listContainsSub_of_startsWith (listStartsWith_append _ _)

/-- `pat in (pre ++ pat)`. -/
theorem pyContains_right (pre pat : String) : pyContains (pre ++ pat) pat = true := by
  unfold pyContains
  rw [String.data_append]
  exact listContainsSub_append_left _
    (listContainsSub_of_startsWith (listStartsWith_refl _))

theorem pyStripList_idem (l : List Char) : pyStripList (pyStripList l) = pyStripList l := by
  have hrw : ∀ m : List Char, pyStripList m =
      List.rdropWhile isPySpace (m.dropWhile isPySpace) := fun _ => rfl
  set p := isPySpace
  set m := l.dropWhile p with hm
  set t := List.rdropWhile p m with ht
  have hmm : m.dropWhile p = m := List.dropWhile_idempotent p l
  have htm : t <+: m := List.rdropWhile_prefix p m
  have hdt : t.dropWhile p = t := by
    obtain ⟨s, hs⟩ := htm
    rw [List.dropWhile_eq_self_iff]
    intro hl
    have hml : 0 < m.length := by
      rw [← hs, List.length_append]
      omega
    have hget : m.get ⟨0, hml⟩ = t.get ⟨0, hl⟩ := by
      rw [List.get_of_eq hs.symm ⟨0, hml⟩]
      simp only [List.get_eq_getElem]
      exact List.getElem_append_left hl
    have hh := List.dropWhile_eq_self_iff.mp hmm hml
    rw [hget] at hh
    exact hh
  calc pyStripList (pyStripList l) = List.rdropWhile p ((pyStripList l).dropWhile p) :=
        hrw _
    _ = List.rdropWhile p (t.dropWhile p) := by rw [hrw l, ← ht]
    _ = List.rdropWhile p t := by rw [hdt]
    _ = List.rdropWhile p (List.rdropWhile p m) := by rw [ht]
    _ = List.rdropWhile p m := List.rdropWhile_idempotent p m
    _ = pyStripList l := (hrw l).symm

theorem pyStrip_idem (s : String) : pyStrip (pyStrip s) = pyStrip s := by
  unfold pyStrip
  exact congrArg String.mk (pyStripList_idem s.data)

theorem dedupAux_subset {x : String} :
    ∀ (l : List String) (seen : List String), x ∈ dedupAux seen l → x ∈ l
  | [], _, h => by simp [dedupAux] at h
  | y :: ys, seen, h => by
    by_cases hy : y ∈ seen
    · simp only [dedupAux, if_pos hy] at h
      exact List.mem_cons_of_mem _ (dedupAux_subset ys seen h)
    · simp only [dedupAux, if_neg hy, List.mem_cons] at h
      rcases h with h | h
      · exact h ▸ List.mem_cons_self _ _
      · exact List.mem_cons_of_mem _ (dedupAux_subset ys (y :: seen) h)

theorem dedupAux_nodup :
    ∀ (l : List String) (seen : List String),
      (dedupAux seen l).Nodup ∧ ∀ x ∈ dedupAux seen l, x ∉ seen
  | [], _ => by simp [dedupAux]
  | y :: ys, seen => by
    by_cases hy : y ∈ seen
    · simp only [dedupAux, if_pos hy]
      exact dedupAux_nodup ys seen
    · simp only [dedupAux, if_neg hy]
      obtain ⟨ih1, ih2⟩ := dedupAux_nodup ys (y :: seen)
      refine ⟨List.nodup_cons.mpr ⟨fun hmem => ?_, ih1⟩, ?_⟩
      · exact ih2 y hmem (List.mem_cons_self _ _)
      · intro x hx
        rcases List.mem_cons.mp hx with rfl | hx'
        · exact hy
        · exact fun hs => ih2 x hx' (List.mem_cons_of_mem _ hs)

theorem normalizeNoneValue_cases (v : Option String) (d : String) :
    normalizeNoneValue v d = d ∨
      (normalizeNoneValue v d = normStripped v ∧ normStripped v ≠ "" ∧
        pyLower (normStripped v) ≠ "none" ∧ pyLower (normStripped v) ≠ "n/a" ∧
        normStripped v ∉ NONE_VALUES) := by
  unfold normalizeNoneValue normStripped
  dsimp only
  split_ifs with h1 h2 h3
  · left; rfl
  · left; rfl
  · left; rfl
  · right
    simp only [Bool.or_eq_true, decide_eq_true_eq, not_or] at h2
    exact ⟨rfl, h1, h2.1, h2.2, h3⟩

theorem normalizeNoneValue_of_normal {s : String} (d : String) (h0 : pyStrip s = s)
    (h1 : s ≠ "") (h2 : pyLower s ≠ "none") (h2' : pyLower s ≠ "n/a")
    (h3 : s ∉ NONE_VALUES) : normalizeNoneValue (some s) d = s := by
  unfold normalizeNoneValue pyNormNoneOrStr
  simp only [h0, if_neg h1, Option.getD_some]
  rw [if_neg (by simp [h2, h2']), if_neg h3]

/-- C8: `_normalize_none_value` is idempotent for both defaults used by
`_fix_criteria_mapping` (`"제한 없음"` for age/region/income/employment and
`"없음"` for `other`), so re-running criterion normalization on an already
normalized value changes nothing. -/
theorem claim_C8 (v : Option String) (d : String) (hd : d = "제한 없음" ∨ d = "없음") :
    normalizeNoneValue (some (normalizeNoneValue v d)) d = normalizeNoneValue v d := by
  rcases normalizeNoneValue_cases v d with hcase | ⟨hval, h1, h2, h2', h3⟩
  · rw [hcase]
    rcases hd with rfl | rfl
    · decide
    · decide
  · rw [hval]
    exact normalizeNoneValue_of_normal d (pyStrip_idem _) h1 h2 h2' h3

/-- Witness for C8 at a concrete none-synonym input and the age default. -/
theorem claim_C8_witness :
    normalizeNoneValue (some (normalizeNoneValue (some " 해당 없음 ") "제한 없음")) "제한 없음" =
      normalizeNoneValue (some " 해당 없음 ") "제한 없음" :=
  claim_C8 (some " 해당 없음 ") "제한 없음" (Or.inl rfl)

/-- C9, amended: an uncaught orchestration exception persists terminal
status `FAILED`, but the persisted `error_message` is the exception text
followed by the *full formatted traceback* — both appear verbatim in the
stored message, so internal stack traces are exposed. -/
theorem claim_C9 (excText tracebackText : String) :
    (orchestratorOnException excText tracebackText).1 = STATUS_FAILED ∧
      (orchestratorOnException excText tracebackText).2 =
        excText ++ "\n" ++ tracebackText ∧
      pyContains (orchestratorOnException excText tracebackText).2 excText = true ∧
      pyContains (orchestratorOnException excText tracebackText).2 tracebackText = true := by
  refine ⟨rfl, rfl, ?_, ?_⟩
  · show pyContains (excText ++ "\n" ++ tracebackText) excText = true
    rw [String.append_assoc]
    exact pyContains_left _ _
  · exact pyContains_right _ _

/-- Counterexample to C9 as stated: at a concrete exception the persisted
message is not the short reason string — it embeds the stack trace dump. -/
theorem claim_C9_counterexample :
    (orchestratorOnException "division by zero"
          "Traceback (most recent call last):\n  File \"app.py\", line 1\nZeroDivisionError: division by zero").2 ≠
        "division by zero" ∧
      pyContains
          (orchestratorOnException "division by zero"
            "Traceback (most recent call last):\n  File \"app.py\", line 1\nZeroDivisionError: division by zero").2
          "Traceback (most recent call last):" = true := by decide

/-- C5 (code-bug evidence): when the agent records no navigation path,
`_run_agent` injects the bookkeeping step with `note = "entry"`, yet the
hint check of `verify_policy_sync` only rejects a single entry whose note is
`"auto-injected"` — so the injected single-step path *passes* as a usable
hint instead of degrading to full exploration. -/
theorem claim_C5 :
    fixupNavigationPath (.arr []) (some "https://example.gov/program") =
        ([JsonValue.obj (injectedEntryStep "https://example.gov/program")],
          some "Agent did not record any navigation_path (empty list)") ∧
      pyGet (injectedEntryStep "https://example.gov/program") "action" = .str "open" ∧
      pyGet (injectedEntryStep "https://example.gov/program") "note" = .str "entry" ∧
      usableHint (some [injectedEntryStep "https://example.gov/program"]) = true ∧
      usableHint (some [[("action", .str "open"), ("label", .str "start"),
        ("url", .str "https://example.gov/program"), ("note", .str "auto-injected")]]) =
        false ∧
      usableHint (some []) = false ∧
      usableHint none = false := by decide

/-- C3: in any state of the retry loop, a deadline expiry
(`asyncio.TimeoutError` from `asyncio.wait_for`) reaches the outer timeout
handler and the supervisor *returns* the terminal timeout result:
`matched = None`, `needs_review = True`, `confidence = 0.0`, and an error
message naming the configured `max_time_sec`. -/
theorem claim_C3 (cfg : RunCfg) (rem attempt snap : Nat) (headless : Bool)
    (lastErr : Option (String × String)) (rest : List AgentOutcome) :
    runAgentGo cfg (rem + 1) attempt (.timeout :: rest) snap headless lastErr =
        .early (timeoutResult cfg) ∧
      pyGet (timeoutResult cfg) "matched" = .null ∧
      pyGet (timeoutResult cfg) "needs_review" = .bool true ∧
      pyGet (timeoutResult cfg) "confidence" = .num "0.0" ∧
      pyGet (timeoutResult cfg) "error_message" =
        .str ("Agent exceeded " ++ toString cfg.maxTimeSec ++ "s timeout") := by
  refine ⟨?_, rfl, rfl, rfl, rfl⟩
  have h1 : isBrowserSnapshotTimeout (AgentOutcome.timeout.classifierMsg) = false := by decide
  have h2 : isBrowserStartTimeout (AgentOutcome.timeout.classifierMsg) = false := by decide
  have h3 : isOverloadError (AgentOutcome.timeout.classifierMsg) = false := by decide
  simp [runAgentGo, h1, h2, h3]

/-- C4 (code-bug evidence): with the default snapshot-failure threshold 2,
the first snapshot-watchdog failure already escapes the loop (there is no
`continue` below the threshold), producing the *generic*
`"Agent execution failed: …"` result; the second scripted failure is never
consumed, and the dedicated "repeated snapshot failure" result differs from
what is returned.  Only a threshold of 1 ever reaches the dedicated
result. -/
theorem claim_C4 :
    runAgentLoop cfgDefault [snapshotExn, snapshotExn] =
        .early (genericFailResult cfgDefault
          "ScreenshotWatchdog.on_ScreenshotEvent timed out after 8.0s") ∧
      pyGet (genericFailResult cfgDefault
          "ScreenshotWatchdog.on_ScreenshotEvent timed out after 8.0s") "error_message" =
        .str "Agent execution failed: ScreenshotWatchdog.on_ScreenshotEvent timed out after 8.0s" ∧
      runAgentLoop cfgDefault [snapshotExn] =
        runAgentLoop cfgDefault [snapshotExn, snapshotExn] ∧
      genericFailResult cfgDefault
          "ScreenshotWatchdog.on_ScreenshotEvent timed out after 8.0s" ≠
        snapshotFailResult cfgDefault ∧
      isBrowserSnapshotTimeout snapshotExn.classifierMsg = true ∧
      runAgentLoop { cfgDefault with maxSnapshotFailures := 1 } [snapshotExn] =
        .early (snapshotFailResult { cfgDefault with maxSnapshotFailures := 1 }) := by decide

/-- C1: whenever `_decide_status_from_browser_result` returns (its
`error_message` field being a string or a falsy value, as every producing
site guarantees), the decided status is `SUCCESS` or `FAILED` — no third
persisted status — and it is `SUCCESS` exactly when `matched is True`,
`needs_review` is falsy, and the stripped error message is empty; every
other combination, `matched = None`/`unknown` included, yields `FAILED`. -/
theorem claim_C1 (r : PyObj) (rawErr : String)
    (he : pyOrEmptyStr (pyGet r "error_message") = .ok rawErr) :
    ∃ st reason, decideStatus r = .ok (st, reason) ∧
      (st = STATUS_SUCCESS ∨ st = STATUS_FAILED) ∧
      (st = STATUS_SUCCESS ↔
        pyGet r "matched" = JsonValue.bool true ∧
          pyTruthy (pyGet r "needs_review") = false ∧ pyStrip rawErr = "") := by
  unfold decideStatus
  rw [he]
  dsimp only
  by_cases h1 : pyStrip rawErr = "POLICY_NOT_FOUND"
  · rw [if_pos h1]
    refine ⟨STATUS_FAILED, _, rfl, Or.inr rfl, ?_⟩
    constructor
    · intro h
      exact absurd h (by decide)
    · rintro ⟨-, -, h3⟩
      rw [h3] at h1
      exact absurd h1 (by decide)
  · rw [if_neg h1]
    by_cases h2 : pyGet r "matched" = JsonValue.bool true ∧
        pyTruthy (pyGet r "needs_review") = false ∧ pyStrip rawErr = ""
    · rw [if_pos h2]
      exact ⟨STATUS_SUCCESS, "", rfl, Or.inl rfl, iff_of_true rfl h2⟩
    · rw [if_neg h2]
      refine ⟨STATUS_FAILED, _, rfl, Or.inr rfl, ?_⟩
      constructor
      · intro h
        exact absurd h (by decide)
      · intro hcond
        exact absurd hcond h2

/-- Witness for C1 at a minimal successful record. -/
theorem claim_C1_witness :
    ∃ st reason, decideStatus [("matched", JsonValue.bool true)] = .ok (st, reason) ∧
      (st = STATUS_SUCCESS ∨ st = STATUS_FAILED) ∧
      (st = STATUS_SUCCESS ↔
        pyGet [("matched", JsonValue.bool true)] "matched" = JsonValue.bool true ∧
          pyTruthy (pyGet [("matched", JsonValue.bool true)] "needs_review") = false ∧
          pyStrip "" = "") :=
  claim_C1 [("matched", JsonValue.bool true)] "" rfl

/-- C10: `_safe_json_loads` is a total function; when the final text is
valid JSON whose top-level value is not an object (e.g. an array), it
returns the `{"raw": text}` fallback, and `_run_agent` replaces that with
the generic parse-failure result: `matched = None`, `needs_review = True`,
the `"JSON parsing failed - manual review needed…"` error message, and the
raw text preserved in `evidence_text`. -/
theorem claim_C10 (text : String) (v : JsonValue) (hv : jsonLoads text = some v)
    (hno : v.isObj = false) :
    safeJsonLoads text = [("raw", .str text)] ∧
      coerceParsed text = jsonFailDict text ∧
      pyGet (jsonFailDict text) "matched" = .null ∧
      pyGet (jsonFailDict text) "needs_review" = .bool true ∧
      pyGet (jsonFailDict text) "error_message" =
        .str "JSON parsing failed - manual review needed. raw text stored in evidence_text." ∧
      pyGet (jsonFailDict text) "evidence_text" = .str text := by
  have hsafe : safeJsonLoads text = [("raw", .str text)] := by
    unfold safeJsonLoads
    rw [hv]
    cases v with
    | obj pairs => simp [JsonValue.isObj] at hno
    | null => rfl
    | bool b => rfl
    | num lexeme => rfl
    | str s => rfl
    | arr items => rfl
  refine ⟨hsafe, ?_, rfl, rfl, rfl, rfl⟩
  unfold coerceParsed
  rw [hsafe]
  rfl

/-- Witness for C10 at the top-level JSON array `"[1, 2]"`. -/
theorem claim_C10_witness :
    safeJsonLoads "[1, 2]" = [("raw", .str "[1, 2]")] ∧
      coerceParsed "[1, 2]" = jsonFailDict "[1, 2]" ∧
      pyGet (jsonFailDict "[1, 2]") "matched" = .null ∧
      pyGet (jsonFailDict "[1, 2]") "needs_review" = .bool true ∧
      pyGet (jsonFailDict "[1, 2]") "error_message" =
        .str "JSON parsing failed - manual review needed. raw text stored in evidence_text." ∧
      pyGet (jsonFailDict "[1, 2]") "evidence_text" = .str "[1, 2]" :=
  claim_C10 "[1, 2]" (.arr [.num "1", .num "2"]) (by decide) rfl

/-- C6, amended: `generate_final_guidance` degrades to the needs-review
placeholder (with the generation-failure warning) only for an unparsable
model reply; a missing API key or a failing model call *raises*, and the
exception propagates out of the function — this stage can therefore fail
the verification (the orchestrator's handler then persists `FAILED`). -/
theorem claim_C6 (k t u b e text : String)
    (h : pyHasKey (fgSafeJsonLoads text) "raw" = true) :
    generateFinalGuidance none (.ok (some text)) t u b =
        .error "GOOGLE_API_KEY is not set" ∧
      generateFinalGuidance (some k) (.error e) t u b = .error e ∧
      generateFinalGuidance (some k) (.ok (some text)) t u b =
        .ok (fgFallbackDict t u (pyGet (fgSafeJsonLoads text) "raw")) ∧
      pyGet (fgFallbackDict t u (pyGet (fgSafeJsonLoads text) "raw")) "needs_review" =
        .bool true ∧
      pyGet (fgFallbackDict t u (pyGet (fgSafeJsonLoads text) "raw")) "warnings" =
        .arr [.str "LLM JSON 파싱 실패 - 수동 확인 필요"] := by
  refine ⟨rfl, rfl, ?_, rfl, rfl⟩
  unfold generateFinalGuidance
  dsimp only [Option.getD_some]
  rw [if_pos h]

/-- Witness for C6 at an unparsable model reply. -/
theorem claim_C6_witness :
    generateFinalGuidance none (.ok (some "hello")) "t" "u" "b" =
        .error "GOOGLE_API_KEY is not set" ∧
      generateFinalGuidance (some "KEY") (.error "boom") "t" "u" "b" = .error "boom" ∧
      generateFinalGuidance (some "KEY") (.ok (some "hello")) "t" "u" "b" =
        .ok (fgFallbackDict "t" "u" (pyGet (fgSafeJsonLoads "hello") "raw")) ∧
      pyGet (fgFallbackDict "t" "u" (pyGet (fgSafeJsonLoads "hello") "raw")) "needs_review" =
        .bool true ∧
      pyGet (fgFallbackDict "t" "u" (pyGet (fgSafeJsonLoads "hello") "raw")) "warnings" =
        .arr [.str "LLM JSON 파싱 실패 - 수동 확인 필요"] :=
  claim_C6 "KEY" "t" "u" "b" "boom" "hello" (by decide)

/-- Counterexample to C6 as stated: with no API key configured the function
does not return a `FinalGuidance` at all — it raises. -/
theorem claim_C6_counterexample :
    generateFinalGuidance none (.ok (some "not json")) "t" "u" "b" =
        .error "GOOGLE_API_KEY is not set" ∧
      exceptIsOk (generateFinalGuidance none (.ok (some "not json")) "t" "u" "b") = false := by
  exact ⟨rfl, rfl⟩

/-- C2, amended: in `_safe_json_loads` the known not-found phrasing check
runs directly after the failed direct decode and *before* the fenced-block
and brace-span extractions, so any unparsable-as-a-whole text containing a
not-found phrase — even one whose only valid JSON object sits in a fenced
block — synthesizes the confident not-matched result (`matched = false`,
`error_message = "POLICY_NOT_FOUND"`, `needs_review = false`), which the
status rule maps to `FAILED` with the specific policy-not-found reason. -/
theorem claim_C2 (text : String) (hparse : jsonLoads text = none)
    (hhint : notFoundHintMatch text = true) :
    safeJsonLoads text = notFoundDict text ∧
      pyGet (notFoundDict text) "matched" = .bool false ∧
      pyGet (notFoundDict text) "error_message" = .str "POLICY_NOT_FOUND" ∧
      pyGet (notFoundDict text) "needs_review" = .bool false ∧
      decideStatus (notFoundDict text) =
        .ok (STATUS_FAILED, "policy not found on the provided site (POLICY_NOT_FOUND)") := by
  refine ⟨?_, rfl, rfl, rfl, rfl⟩
  unfold safeJsonLoads
  rw [hparse, if_pos hhint]

/-- Witness for C2 at scenario B's phrase (`"자료가 없습니다"`) beside a
fenced JSON block. -/
theorem claim_C2_witness :
    safeJsonLoads "자료가 없습니다\n```json\n\x7b\"matched\": true\x7d\n```" =
        notFoundDict "자료가 없습니다\n```json\n\x7b\"matched\": true\x7d\n```" ∧
      pyGet (notFoundDict "자료가 없습니다\n```json\n\x7b\"matched\": true\x7d\n```") "matched" =
        .bool false ∧
      pyGet (notFoundDict "자료가 없습니다\n```json\n\x7b\"matched\": true\x7d\n```")
          "error_message" = .str "POLICY_NOT_FOUND" ∧
      pyGet (notFoundDict "자료가 없습니다\n```json\n\x7b\"matched\": true\x7d\n```")
          "needs_review" = .bool false ∧
      decideStatus (notFoundDict "자료가 없습니다\n```json\n\x7b\"matched\": true\x7d\n```") =
        .ok (STATUS_FAILED, "policy not found on the provided site (POLICY_NOT_FOUND)") :=
  claim_C2 "자료가 없습니다\n```json\n\x7b\"matched\": true\x7d\n```" (by decide) (by decide)

/-- Counterexample to C2 as stated: this input's only valid JSON object
lies in a fenced block (conjuncts 1–2), yet the result is the synthesized
POLICY_NOT_FOUND record, not the object parsed from that block — the
not-found check preempts fenced extraction. -/
theorem claim_C2_counterexample :
    fencedExtract "자료가 없습니다\n```json\n\x7b\"matched\": true\x7d\n```" =
        some "\x7b\"matched\": true\x7d" ∧
      jsonLoads "\x7b\"matched\": true\x7d" = some (.obj [("matched", .bool true)]) ∧
      safeJsonLoads "자료가 없습니다\n```json\n\x7b\"matched\": true\x7d\n```" ≠
        [("matched", JsonValue.bool true)] ∧
      pyGet (safeJsonLoads "자료가 없습니다\n```json\n\x7b\"matched\": true\x7d\n```")
          "error_message" = .str "POLICY_NOT_FOUND" := by decide

theorem keepRequiredDocument_spec {raw : Option String} {x : String}
    (h : keepRequiredDocument? raw = some x) :
    (fileExtMatch x = true ∨ pyContains x "신청서" = true ∨ pyContains x "제출" = true ∨
        pyContains x "서류" = true ∨ pyContains x "증명" = true ∨
        pyContains x "공고" = true) ∧
      (phoneSearch x = true → fileExtMatch x = true) ∧
      (addressSearch x = true → fileExtMatch x = true) := by
  unfold keepRequiredDocument? at h
  cases hn : pyNormNoneOrStr raw with
  | none => rw [hn] at h; exact absurd h (by simp)
  | some s =>
    rw [hn] at h
    dsimp only at h
    split_ifs at h with h1 h2 h3 h4 <;>
      first
        | exact Option.noConfusion h
        | · have hsx : s = x := Option.some.inj h
            subst hsx
            simp only [Bool.and_eq_true, Bool.not_eq_true', not_and] at h2 h3
            simp only [Bool.or_eq_true] at h4
            refine ⟨?_, ?_, ?_⟩
            · tauto
            · intro hp
              simpa [hp] using h2
            · intro ha
              simpa [ha] using h3

/-- C7, amended: required-documents cleaning keeps only entries that look
like a filename (recognized extension) or contain one of the document
keywords (신청서/제출/서류/증명/공고); a phone-like or address-like entry is
dropped unless it matches the *filename* pattern (a document keyword does
not rescue it), and everything else — not only phone/address noise — is
dropped too.  The result is deduplicated preserving first-occurrence order,
and bare phone numbers / street addresses never survive. -/
theorem claim_C7 (items : List (Option String)) :
    (∀ x ∈ cleanRequiredDocuments items,
        fileExtMatch x = true ∨ pyContains x "신청서" = true ∨ pyContains x "제출" = true ∨
          pyContains x "서류" = true ∨ pyContains x "증명" = true ∨
          pyContains x "공고" = true) ∧
      (∀ x ∈ cleanRequiredDocuments items, phoneSearch x = true → fileExtMatch x = true) ∧
      (∀ x ∈ cleanRequiredDocuments items, addressSearch x = true → fileExtMatch x = true) ∧
      (cleanRequiredDocuments items).Nodup ∧
      cleanRequiredDocuments
          [some "신청서.pdf", some "02-123-4567", some "123 번지",
            some "application_form.pdf", some "신청서.pdf"] =
        ["신청서.pdf", "application_form.pdf"] := by
  have hmem : ∀ x ∈ cleanRequiredDocuments items,
      ∃ raw ∈ items, keepRequiredDocument? raw = some x := by
    intro x hx
    exact List.mem_filterMap.mp (dedupAux_subset _ [] hx)
  refine ⟨?_, ?_, ?_, (dedupAux_nodup _ []).1, by decide⟩
  · intro x hx
    obtain ⟨raw, -, hk⟩ := hmem x hx
    exact (keepRequiredDocument_spec hk).1
  · intro x hx
    obtain ⟨raw, -, hk⟩ := hmem x hx
    exact (keepRequiredDocument_spec hk).2.1
  · intro x hx
    obtain ⟨raw, -, hk⟩ := hmem x hx
    exact (keepRequiredDocument_spec hk).2.2

/-- Witness for C7: the retained filename entry of the concrete run
satisfies the whitelist, discharging the membership hypothesis. -/
theorem claim_C7_witness :
    fileExtMatch "신청서.pdf" = true ∨ pyContains "신청서.pdf" "신청서" = true ∨
      pyContains "신청서.pdf" "제출" = true ∨ pyContains "신청서.pdf" "서류" = true ∨
      pyContains "신청서.pdf" "증명" = true ∨ pyContains "신청서.pdf" "공고" = true :=
  (claim_C7 [some "신청서.pdf", some "02-123-4567", some "123 번지",
    some "application_form.pdf", some "신청서.pdf"]).1 "신청서.pdf" (by decide)

/-- Counterexample to C7 as stated: a phone-number entry containing the
document keyword `신청서` is still stripped (the keyword does not rescue
it), and a harmless entry that looks like neither a phone number nor an
address (`여권`, "passport") is stripped as well instead of being left in
the output. -/
theorem claim_C7_counterexample :
    pyContains "신청서 02-123-4567" "신청서" = true ∧
      cleanRequiredDocuments [some "신청서 02-123-4567"] = [] ∧
      phoneSearch "여권" = false ∧
      addressSearch "여권" = false ∧
      cleanRequiredDocuments [some "여권"] = [] := by decide
